import Mathlib

/-!
# Project-Nest backend: configuration loading and database connection

A shallow embedding of

* `Backend/internal/config/config.go` (`Config`, `Load`, `getEnv`, `getCORSOrigins`)
* `Backend/internal/database/connection.go` (`Connect`)

Go strings are modelled as Lean `String`s (sequences of Unicode code points).
The process environment is a function from variable names to optional values;
`os.Getenv` returns the empty string for an unset variable.
-/

namespace ProjectNest

/-! ## Library functions used by the source -/

/-- The process environment: `none` for an unset variable. -/
abbrev Env := String → Option String

/-- Go `os.Getenv`: the value of the variable, or `""` when it is unset. -/
def Getenv (env : Env) (key : String) : String :=
  match env key with
  | some v => v
  | none => ""

/-- Go `unicode.IsSpace`: the Latin-1 cases `'\t' '\n' '\v' '\f' '\r' ' '`, U+0085, U+00A0,
followed by the remaining ranges of the `White_Space` table. -/
def IsSpace (r : Char) : Bool :=
  let n := r.toNat
  if n ≤ 0xFF then
    n == 0x09 || n == 0x0A || n == 0x0B || n == 0x0C || n == 0x0D || n == 0x20
      || n == 0x85 || n == 0xA0
  else
    n == 0x1680 || (0x2000 ≤ n && n ≤ 0x200A) || n == 0x2028 || n == 0x2029
      || n == 0x202F || n == 0x205F || n == 0x3000

/-- Go `strings.TrimSpace` on the code points of a string: leading and trailing
white space (as defined by `IsSpace`) removed. -/
def trimSpaceChars (s : List Char) : List Char :=
  ((s.dropWhile IsSpace).reverse.dropWhile IsSpace).reverse

/-- Go `strings.TrimSpace`. -/
def TrimSpace (s : String) : String :=
  ⟨trimSpaceChars s.data⟩

/-- Go `strings.Split(s, sep)` for a one-character separator, on code points: the
substrings between the separators; a string without separator gives the
one-element list holding the string itself. -/
def splitChars (sep : Char) : List Char → List (List Char)
  | [] => [[]]
  | c :: cs =>
    if c = sep then [] :: splitChars sep cs
    else
      match splitChars sep cs with
      | [] => [[c]]
      | h :: t => (c :: h) :: t

/-- Go `strings.Split(s, sep)` for a one-character separator. -/
def Split (s : String) (sep : Char) : List String :=
  (splitChars sep s.data).map String.mk

/-! ## `config.go` -/

/-- The `Config` struct of `config.go`. -/
structure Config where
  DatabaseURL : String
  DBHost : String
  DBPort : String
  DBUser : String
  DBPassword : String
  DBName : String
  DBSSLMode : String
  ServerPort : String
  ServerHost : String
  AppEnv : String
  LogLevel : String
  JWTSecret : String
  CORSAllowedOrigins : List String
  deriving DecidableEq

/-- Source function `getEnv(key, defaultValue)`. -/
def getEnv (env : Env) (key defaultValue : String) : String :=
  let value := Getenv env key
  if value ≠ "" then value else defaultValue

/-- The local `defaultOrigins` of `getCORSOrigins`. -/
def defaultOrigins : String :=
  "http://localhost:5173,http://localhost:3000,http://localhost:8080,http://localhost:8082,http://localhost:8081"

/-- The `for _, origin := range originList` loop of `getCORSOrigins`: the value of
`found` when the loop ends (it starts `false` and the loop breaks at the first match). -/
def getCORSOrigins.found (dynamicOrigin : String) : List String → Bool
  | [] => false
  | origin :: rest =>
    if TrimSpace origin = dynamicOrigin then true
    else getCORSOrigins.found dynamicOrigin rest

/-- Source function `getCORSOrigins()`. -/
def getCORSOrigins (env : Env) : List String :=
  let origins := getEnv env "CORS_ALLOWED_ORIGINS" defaultOrigins
  let frontendPort := getEnv env "FRONTEND_PORT" ""
  let originList := Split origins ','
  if frontendPort ≠ "" then
    let dynamicOrigin := "http://localhost:" ++ frontendPort
    if !getCORSOrigins.found dynamicOrigin originList then
      originList ++ [dynamicOrigin]
    else originList
  else originList

/-- Source function `Load()`. -/
def Load (env : Env) : Config :=
  { DatabaseURL := getEnv env "DATABASE_URL" ""
    DBHost := getEnv env "DB_HOST" "localhost"
    DBPort := getEnv env "DB_PORT" "5432"
    DBUser := getEnv env "DB_USER" "postgres"
    DBPassword := getEnv env "DB_PASSWORD" "password"
    DBName := getEnv env "DB_NAME" "lucid_lists"
    DBSSLMode := getEnv env "DB_SSLMODE" "disable"
    ServerPort := getEnv env "PORT" "8080"
    ServerHost := getEnv env "SERVER_HOST" "localhost"
    AppEnv := getEnv env "APP_ENV" "development"
    LogLevel := getEnv env "LOG_LEVEL" "info"
    JWTSecret := getEnv env "JWT_SECRET" "your-super-secret-jwt-key-change-in-production"
    CORSAllowedOrigins := getCORSOrigins env }

/-! ## `connection.go` -/

/-- A Go `error` value: a plain error with its message, or an error made by
`fmt.Errorf` with the `%w` verb, which keeps the wrapped error. -/
inductive GoError where
  | base (msg : String)
  | wrap (msg : String) (err : GoError)
  deriving DecidableEq

/-- The `Error()` method: the message of an error. -/
def GoError.Error : GoError → String
  | .base msg => msg
  | .wrap msg _ => msg

/-- Go `fmt.Errorf(context + "%w", err)`: the message is the context followed by
the message of `err`, and `err` stays reachable by unwrapping. -/
def Errorf (context : String) (err : GoError) : GoError :=
  .wrap (context ++ err.Error) err

/-- The driver's `pgxpool.Config`: the two pool bounds that `Connect` assigns and,
in `other`, every other setting the parser produced. -/
structure PoolConfig (α : Type) where
  MaxConns : Int
  MinConns : Int
  other : α
  deriving DecidableEq

/-- The driver library (`pgxpool`): descriptor parsing, pool construction and
the liveness check, each of which succeeds or fails. `π` is the type of pool handles. -/
structure Driver (α π : Type) where
  ParseConfig : String → Except GoError (PoolConfig α)
  NewWithConfig : PoolConfig α → Except GoError π
  Ping : π → Option GoError

/-- One call that `Connect` makes to a collaborator, with its arguments. -/
inductive Call (α π : Type) where
  | logInfo (component msg : String)
  | parse (dsn : String)
  | create (config : PoolConfig α)
  | ping (pool : π)
  deriving DecidableEq

/-- What a run of `Connect` yields: the returned pair `(pool, err)` (`none` is
Go's `nil`) and the calls made to the logger and the driver, in order. -/
structure ConnectResult (α π : Type) where
  pool : Option π
  err : Option GoError
  calls : List (Call α π)
  deriving DecidableEq

/-- The value of the local variable `dsn` of `Connect` once the `if` on
`cfg.DatabaseURL` has run; `fmt.Sprintf` with `%s` verbs inserts each string as is. -/
def Connect.dsn (cfg : Config) : String :=
  if cfg.DatabaseURL ≠ "" then cfg.DatabaseURL
  else
    "host=" ++ cfg.DBHost ++ " port=" ++ cfg.DBPort ++ " user=" ++ cfg.DBUser
      ++ " password=" ++ cfg.DBPassword ++ " dbname=" ++ cfg.DBName
      ++ " sslmode=" ++ cfg.DBSSLMode

/-- The message logged by the branch of the `if` on `cfg.DatabaseURL` that runs. -/
def Connect.logMessage (cfg : Config) : String :=
  if cfg.DatabaseURL ≠ "" then "Using DATABASE_URL for database connection"
  else "Using individual DB components for database connection"

/-- Source function `Connect(cfg)`, over a driver `drv`. -/
def Connect {α π : Type} (drv : Driver α π) (cfg : Config) : ConnectResult α π :=
  let dsn := Connect.dsn cfg
  let t0 : List (Call α π) := [.logInfo "database" (Connect.logMessage cfg)]
  let t1 := t0 ++ [.parse dsn]
  match drv.ParseConfig dsn with
  | .error err =>
    { pool := none, err := some (Errorf "failed to parse database config: " err), calls := t1 }
  | .ok config =>
    let config := { config with MaxConns := 10 }
    let config := { config with MinConns := 2 }
    let t2 := t1 ++ [.create config]
    match drv.NewWithConfig config with
    | .error err =>
      { pool := none, err := some (Errorf "failed to create connection pool: " err), calls := t2 }
    | .ok pool =>
      let t3 := t2 ++ [.ping pool]
      match drv.Ping pool with
      | some err =>
        { pool := none, err := some (Errorf "failed to ping database: " err), calls := t3 }
      | none => { pool := some pool, err := none, calls := t3 }

/-- The descriptors handed to the driver's parser during a run, in order. -/
def parsedDescriptors {α π : Type} (calls : List (Call α π)) : List String :=
  calls.filterMap fun
    | .parse dsn => some dsn
    | _ => none

/-- The calls made to the driver (parse, create, ping) during a run, in order. -/
def driverCalls {α π : Type} (calls : List (Call α π)) : List (Call α π) :=
  calls.filter fun
    | .logInfo _ _ => false
    | _ => true

/-! ## Sample inputs -/

/-- An environment given by a list of bindings (first binding of a name wins). -/
def envOf (bindings : List (String × String)) : Env :=
  fun key => (bindings.find? (fun kv => kv.1 = key)).map Prod.snd

/-- A driver that rejects the empty descriptor, reads pool bounds 4 and 0 from
every other descriptor, hands out pool `7`, and whose ping succeeds exactly
when `reachable` holds. -/
def sampleDriver (reachable : Bool) : Driver String Nat where
  ParseConfig := fun dsn =>
    if dsn = "" then .error (.base "empty descriptor")
    else .ok { MaxConns := 4, MinConns := 0, other := dsn }
  NewWithConfig := fun _ => .ok 7
  Ping := fun _ => if reachable then none else some (.base "connection refused")

/-- The configuration loaded from the empty environment. -/
def defaultConfig : Config := Load (envOf [])

theorem getEnv_of_nonempty (env : Env) (key d v : String) (h : env key = some v)
    (hv : v ≠ "") : getEnv env key d = v := by
  simp [getEnv, Getenv, h, hv]

theorem getEnv_of_absent (env : Env) (key d : String)
    (h : env key = none ∨ env key = some "") : getEnv env key d = d := by
  rcases h with h | h <;> simp [getEnv, Getenv, h]

theorem getEnv_ne_empty (env : Env) (key d : String) (hd : d ≠ "") :
    getEnv env key d ≠ "" := by
  unfold getEnv
  by_cases h : Getenv env key ≠ ""
  · simp [h]
  · simpa [h] using hd

theorem found_iff (d : String) (l : List String) :
    getCORSOrigins.found d l = true ↔ ∃ o ∈ l, TrimSpace o = d := by
  induction l with
  | nil => simp [getCORSOrigins.found]
  | cons o rest ih =>
    by_cases h : TrimSpace o = d
    · simp [getCORSOrigins.found, h]
    · simp [getCORSOrigins.found, h, ih]

theorem splitChars_ne_nil (sep : Char) (s : List Char) : splitChars sep s ≠ [] := by
  cases s with
  | nil => simp [splitChars]
  | cons c cs =>
    unfold splitChars
    split
    · simp
    · split <;> simp

theorem Split_ne_nil (s : String) (sep : Char) : Split s sep ≠ [] := by
  simp [Split, splitChars_ne_nil]

theorem getCORSOrigins_of_port_empty (env : Env)
    (h : getEnv env "FRONTEND_PORT" "" = "") :
    getCORSOrigins env = Split (getEnv env "CORS_ALLOWED_ORIGINS" defaultOrigins) ',' := by
  simp [getCORSOrigins, h]

theorem getCORSOrigins_of_found (env : Env)
    (hf : ∃ o ∈ Split (getEnv env "CORS_ALLOWED_ORIGINS" defaultOrigins) ',',
      TrimSpace o = "http://localhost:" ++ getEnv env "FRONTEND_PORT" "") :
    getCORSOrigins env = Split (getEnv env "CORS_ALLOWED_ORIGINS" defaultOrigins) ',' := by
  have := (found_iff _ _).mpr hf
  simp [getCORSOrigins, this]

theorem getCORSOrigins_of_not_found (env : Env)
    (hne : getEnv env "FRONTEND_PORT" "" ≠ "")
    (hf : ∀ o ∈ Split (getEnv env "CORS_ALLOWED_ORIGINS" defaultOrigins) ',',
      TrimSpace o ≠ "http://localhost:" ++ getEnv env "FRONTEND_PORT" "") :
    getCORSOrigins env =
      Split (getEnv env "CORS_ALLOWED_ORIGINS" defaultOrigins) ',' ++
        ["http://localhost:" ++ getEnv env "FRONTEND_PORT" ""] := by
  have : getCORSOrigins.found ("http://localhost:" ++ getEnv env "FRONTEND_PORT" "")
      (Split (getEnv env "CORS_ALLOWED_ORIGINS" defaultOrigins) ',') = false := by
    rw [← Bool.not_eq_true, found_iff]
    rintro ⟨o, ho, h⟩
    exact hf o ho h
  simp [getCORSOrigins, hne, this]

/-- The result of `getCORSOrigins` only depends on the two variables it reads. -/
theorem getCORSOrigins_congr (env env' : Env)
    (h1 : env "CORS_ALLOWED_ORIGINS" = env' "CORS_ALLOWED_ORIGINS")
    (h2 : env "FRONTEND_PORT" = env' "FRONTEND_PORT") :
    getCORSOrigins env = getCORSOrigins env' := by
  simp [getCORSOrigins, getEnv, Getenv, h1, h2]

/-- A string that starts with a non-space character and does not end in a space
character is left unchanged by `TrimSpace`. -/
theorem trimSpaceChars_eq_self (s : List Char)
    (hhead : ∀ c, s.head? = some c → IsSpace c = false)
    (hlast : ∀ c, s.getLast? = some c → IsSpace c = false) : trimSpaceChars s = s := by
  have h1 : s.dropWhile IsSpace = s := by
    cases s with
    | nil => rfl
    | cons c cs => simp [List.dropWhile, hhead c rfl]
  unfold trimSpaceChars
  rw [h1]
  change List.rdropWhile IsSpace s = s
  rw [List.rdropWhile_eq_self_iff]
  intro hl
  have := hlast (s.getLast hl) (List.getLast?_eq_getLast _ hl)
  simp [this]

/-- The synthesized origin is a fixed point of `TrimSpace` when the port does
not end in a space character. -/
theorem TrimSpace_dynamicOrigin (p : String)
    (hlast : ∀ c, p.data.getLast? = some c → IsSpace c = false) :
    TrimSpace ("http://localhost:" ++ p) = "http://localhost:" ++ p := by
  apply String.ext
  show trimSpaceChars ("http://localhost:" ++ p).data = _
  apply trimSpaceChars_eq_self
  · intro c hc
    have : c = 'h' := by
      simpa [String.data_append] using hc.symm
    subst this
    decide
  · intro c hc
    rw [String.data_append, List.getLast?_append] at hc
    cases hq : p.data.getLast? with
    | some q =>
      rw [hq] at hc
      simp at hc
      subst hc
      exact hlast _ hq
    | none =>
      rw [hq] at hc
      have : c = ':' := by simpa using hc.symm
      subst this
      decide

/-- C1: each of the twelve scalar fields of the loaded configuration equals
its variable's value, unchanged, when that value is non-empty, and the
documented default when the variable is unset or empty. -/
theorem Load_scalar_fields (env : Env) :
    ∀ e ∈ ([("DATABASE_URL", Config.DatabaseURL, ""),
        ("DB_HOST", Config.DBHost, "localhost"),
        ("DB_PORT", Config.DBPort, "5432"),
        ("DB_USER", Config.DBUser, "postgres"),
        ("DB_PASSWORD", Config.DBPassword, "password"),
        ("DB_NAME", Config.DBName, "lucid_lists"),
        ("DB_SSLMODE", Config.DBSSLMode, "disable"),
        ("PORT", Config.ServerPort, "8080"),
        ("SERVER_HOST", Config.ServerHost, "localhost"),
        ("APP_ENV", Config.AppEnv, "development"),
        ("LOG_LEVEL", Config.LogLevel, "info"),
        ("JWT_SECRET", Config.JWTSecret, "your-super-secret-jwt-key-change-in-production")] :
        List (String × (Config → String) × String)),
      (∀ v, env e.1 = some v → v ≠ "" → e.2.1 (Load env) = v) ∧
      ((env e.1 = none ∨ env e.1 = some "") → e.2.1 (Load env) = e.2.2) := by
  intro e he
  simp only [List.mem_cons, List.mem_singleton, List.not_mem_nil, or_false] at he
  rcases he with rfl | rfl | rfl | rfl | rfl | rfl | rfl | rfl | rfl | rfl | rfl | rfl
  all_goals
    exact ⟨fun v h hv => getEnv_of_nonempty env _ _ v h hv, fun h => getEnv_of_absent env _ _ h⟩

/-- Witness for C1: a host name with surrounding blanks is kept as it is. -/
theorem Load_scalar_fields_witness :
    (Load (envOf [("DB_HOST", " db.example "), ("PORT", "")])).DBHost = " db.example " ∧
    (Load (envOf [("DB_HOST", " db.example "), ("PORT", "")])).ServerPort = "8080" ∧
    (Load (envOf [("DB_HOST", " db.example "), ("PORT", "")])).DBName = "lucid_lists" :=
  ⟨(Load_scalar_fields (envOf [("DB_HOST", " db.example "), ("PORT", "")])
      ("DB_HOST", Config.DBHost, "localhost") (by simp)).1 " db.example " rfl (by decide),
    (Load_scalar_fields (envOf [("DB_HOST", " db.example "), ("PORT", "")])
      ("PORT", Config.ServerPort, "8080") (by simp)).2 (Or.inr rfl),
    (Load_scalar_fields (envOf [("DB_HOST", " db.example "), ("PORT", "")])
      ("DB_NAME", Config.DBName, "lucid_lists") (by simp)).2 (Or.inl rfl)⟩

/-- C8: for every environment the loaded configuration has every scalar field
other than `DatabaseURL` non-empty and a non-empty list of allowed origins.
`Load` is a total function, so it always returns. -/
theorem Load_fully_populated (env : Env) :
    (Load env).DBHost ≠ "" ∧ (Load env).DBPort ≠ "" ∧ (Load env).DBUser ≠ "" ∧
    (Load env).DBPassword ≠ "" ∧ (Load env).DBName ≠ "" ∧ (Load env).DBSSLMode ≠ "" ∧
    (Load env).ServerPort ≠ "" ∧ (Load env).ServerHost ≠ "" ∧ (Load env).AppEnv ≠ "" ∧
    (Load env).LogLevel ≠ "" ∧ (Load env).JWTSecret ≠ "" ∧
    (Load env).CORSAllowedOrigins ≠ [] := by
  refine ⟨getEnv_ne_empty _ _ _ (by decide), getEnv_ne_empty _ _ _ (by decide),
    getEnv_ne_empty _ _ _ (by decide), getEnv_ne_empty _ _ _ (by decide),
    getEnv_ne_empty _ _ _ (by decide), getEnv_ne_empty _ _ _ (by decide),
    getEnv_ne_empty _ _ _ (by decide), getEnv_ne_empty _ _ _ (by decide),
    getEnv_ne_empty _ _ _ (by decide), getEnv_ne_empty _ _ _ (by decide),
    getEnv_ne_empty _ _ _ (by decide), ?_⟩
  show getCORSOrigins env ≠ []
  have := Split_ne_nil (getEnv env "CORS_ALLOWED_ORIGINS" defaultOrigins) ','
  simp only [getCORSOrigins]
  split
  · split
    · simp
    · exact this
  · exact this

/-- C2: with `origins` the value of `CORS_ALLOWED_ORIGINS` (the five-origin
default when unset or empty), `getCORSOrigins` returns the comma-split of
`origins` followed by the synthesized origin when `FRONTEND_PORT` is non-empty
and no entry equals that origin after trimming, and the comma-split alone in
every other case; with `FRONTEND_PORT=9000` and `CORS_ALLOWED_ORIGINS` unset
the result is the five defaults followed by `http://localhost:9000`, once. -/
theorem getCORSOrigins_appends_unless_present (env : Env) (origins : String)
    (ho : (env "CORS_ALLOWED_ORIGINS" = some origins ∧ origins ≠ "") ∨
      ((env "CORS_ALLOWED_ORIGINS" = none ∨ env "CORS_ALLOWED_ORIGINS" = some "") ∧
        origins = "http://localhost:5173,http://localhost:3000,http://localhost:8080,http://localhost:8082,http://localhost:8081")) :
    (∀ p, env "FRONTEND_PORT" = some p → p ≠ "" →
      (∀ o ∈ Split origins ',', TrimSpace o ≠ "http://localhost:" ++ p) →
      getCORSOrigins env = Split origins ',' ++ ["http://localhost:" ++ p]) ∧
    (∀ p, env "FRONTEND_PORT" = some p → p ≠ "" →
      (∃ o ∈ Split origins ',', TrimSpace o = "http://localhost:" ++ p) →
      getCORSOrigins env = Split origins ',') ∧
    ((env "FRONTEND_PORT" = none ∨ env "FRONTEND_PORT" = some "") →
      getCORSOrigins env = Split origins ',') ∧
    (env "FRONTEND_PORT" = some "9000" → env "CORS_ALLOWED_ORIGINS" = none →
      getCORSOrigins env = ["http://localhost:5173", "http://localhost:3000",
        "http://localhost:8080", "http://localhost:8082", "http://localhost:8081",
        "http://localhost:9000"] ∧
      (getCORSOrigins env).count "http://localhost:9000" = 1) := by
  have hor : getEnv env "CORS_ALLOWED_ORIGINS" defaultOrigins = origins := by
    rcases ho with ⟨h, hne⟩ | ⟨h, rfl⟩
    · exact getEnv_of_nonempty env _ _ _ h hne
    · exact getEnv_of_absent env _ _ h
  refine ⟨?_, ?_, ?_, ?_⟩
  · intro p hp hne hall
    have hfp := getEnv_of_nonempty env "FRONTEND_PORT" "" p hp hne
    have := getCORSOrigins_of_not_found env (by rw [hfp]; exact hne)
      (by rw [hfp, hor]; exact hall)
    rw [this, hfp, hor]
  · intro p hp hne hex
    have hfp := getEnv_of_nonempty env "FRONTEND_PORT" "" p hp hne
    have := getCORSOrigins_of_found env (by rw [hfp, hor]; exact hex)
    rw [this, hor]
  · intro h
    rw [getCORSOrigins_of_port_empty env (getEnv_of_absent env _ _ h), hor]
  · intro hp hc
    have : getCORSOrigins env = getCORSOrigins (envOf [("FRONTEND_PORT", "9000")]) :=
      getCORSOrigins_congr _ _ (by rw [hc]; rfl) (by rw [hp]; rfl)
    rw [this]
    decide

/-- Witness for C2: the environment that only sets `FRONTEND_PORT=9000`. -/
theorem getCORSOrigins_appends_unless_present_witness :
    getCORSOrigins (envOf [("FRONTEND_PORT", "9000")]) =
      ["http://localhost:5173", "http://localhost:3000", "http://localhost:8080",
        "http://localhost:8082", "http://localhost:8081", "http://localhost:9000"] ∧
    (getCORSOrigins (envOf [("FRONTEND_PORT", "9000")])).count "http://localhost:9000" = 1 :=
  (getCORSOrigins_appends_unless_present (envOf [("FRONTEND_PORT", "9000")])
    "http://localhost:5173,http://localhost:3000,http://localhost:8080,http://localhost:8082,http://localhost:8081"
    (Or.inr ⟨Or.inl rfl, rfl⟩)).2.2.2 rfl rfl

/-- C3 as stated fails: with `FRONTEND_PORT=9000` present among the entries, a
`CORS_ALLOWED_ORIGINS` that lists an origin twice is returned with both copies;
and with a `FRONTEND_PORT` ending in a blank, an entry equal to the synthesized
origin is not recognised, so the origin is appended a second time. -/
theorem getCORSOrigins_duplicate_counterexample :
    ("http://localhost:" ++ "9000" ∈
        Split "http://localhost:9000,http://localhost:9000" ',' ∧
      ¬ (getCORSOrigins (envOf [("CORS_ALLOWED_ORIGINS",
          "http://localhost:9000,http://localhost:9000"), ("FRONTEND_PORT", "9000")])).Nodup) ∧
    ("http://localhost:" ++ "9000 " ∈ Split "http://localhost:9000 " ',' ∧
      (Split "http://localhost:9000 " ',').Nodup ∧
      ¬ (getCORSOrigins (envOf [("CORS_ALLOWED_ORIGINS", "http://localhost:9000 "),
          ("FRONTEND_PORT", "9000 ")])).Nodup) := by
  decide

/-- C3, amended: with `origins` the value of `CORS_ALLOWED_ORIGINS` (the
five-origin default when unset or empty), when the synthesized origin is one of
the comma-separated entries of `origins` and `FRONTEND_PORT` does not end in a
space character, `getCORSOrigins` returns exactly those entries, nothing
appended; so the result has no duplicate when the entries are pairwise distinct. -/
theorem getCORSOrigins_present_not_appended (env : Env) (origins p : String)
    (ho : (env "CORS_ALLOWED_ORIGINS" = some origins ∧ origins ≠ "") ∨
      ((env "CORS_ALLOWED_ORIGINS" = none ∨ env "CORS_ALLOWED_ORIGINS" = some "") ∧
        origins = "http://localhost:5173,http://localhost:3000,http://localhost:8080,http://localhost:8082,http://localhost:8081"))
    (hp : env "FRONTEND_PORT" = some p)
    (hlast : ∀ c, p.data.getLast? = some c → IsSpace c = false)
    (hmem : "http://localhost:" ++ p ∈ Split origins ',') :
    getCORSOrigins env = Split origins ',' ∧
    ((Split origins ',').Nodup → (getCORSOrigins env).Nodup) := by
  have hor : getEnv env "CORS_ALLOWED_ORIGINS" defaultOrigins = origins := by
    rcases ho with ⟨h, hne⟩ | ⟨h, rfl⟩
    · exact getEnv_of_nonempty env _ _ _ h hne
    · exact getEnv_of_absent env _ _ h
  have key : getCORSOrigins env = Split origins ',' := by
    by_cases hpe : p = ""
    · subst hpe
      rw [getCORSOrigins_of_port_empty env (getEnv_of_absent env _ _ (Or.inr hp)), hor]
    · have hfp := getEnv_of_nonempty env "FRONTEND_PORT" "" p hp hpe
      rw [getCORSOrigins_of_found env
        (by rw [hfp, hor]; exact ⟨_, hmem, TrimSpace_dynamicOrigin p hlast⟩), hor]
  exact ⟨key, fun h => key ▸ h⟩

/-- Witness for C3, amended: port 8082 is among the five default origins when
`CORS_ALLOWED_ORIGINS` is unset, and port 9000 is the second of two distinct
entries of a `CORS_ALLOWED_ORIGINS` that is set. -/
theorem getCORSOrigins_present_not_appended_witness :
    (getCORSOrigins (envOf [("FRONTEND_PORT", "8082")]) =
        ["http://localhost:5173", "http://localhost:3000", "http://localhost:8080",
          "http://localhost:8082", "http://localhost:8081"] ∧
      (getCORSOrigins (envOf [("FRONTEND_PORT", "8082")])).Nodup) ∧
    (getCORSOrigins (envOf [("CORS_ALLOWED_ORIGINS",
        "http://localhost:3000,http://localhost:9000"), ("FRONTEND_PORT", "9000")]) =
        ["http://localhost:3000", "http://localhost:9000"] ∧
      (getCORSOrigins (envOf [("CORS_ALLOWED_ORIGINS",
        "http://localhost:3000,http://localhost:9000"), ("FRONTEND_PORT", "9000")])).Nodup) :=
  have h1 := getCORSOrigins_present_not_appended (envOf [("FRONTEND_PORT", "8082")])
    "http://localhost:5173,http://localhost:3000,http://localhost:8080,http://localhost:8082,http://localhost:8081"
    "8082" (Or.inr ⟨Or.inl rfl, rfl⟩) rfl (fun c hc => Option.some.inj hc ▸ rfl) (by decide)
  have h2 := getCORSOrigins_present_not_appended
    (envOf [("CORS_ALLOWED_ORIGINS", "http://localhost:3000,http://localhost:9000"),
      ("FRONTEND_PORT", "9000")])
    "http://localhost:3000,http://localhost:9000" "9000" (Or.inl ⟨rfl, by decide⟩) rfl
    (fun c hc => Option.some.inj hc ▸ rfl) (by decide)
  ⟨⟨h1.1.trans (by decide), h1.2 (by decide)⟩, ⟨h2.1.trans (by decide), h2.2 (by decide)⟩⟩

/-- C9 as stated fails: with `FRONTEND_PORT` set to `9000` followed by a blank,
no entry of the result equals the synthesized origin after trimming. -/
theorem getCORSOrigins_trimmed_counterexample :
    "9000 " ≠ "" ∧
    ¬ ∃ e ∈ getCORSOrigins (envOf [("FRONTEND_PORT", "9000 ")]),
      TrimSpace e = "http://localhost:" ++ "9000 " := by
  decide

/-- C9, amended: when `FRONTEND_PORT` is non-empty the result has an entry that
equals the synthesized origin as it stands or after trimming, and after
trimming when `FRONTEND_PORT` does not end in a space character; the entries of
`CORS_ALLOWED_ORIGINS` (of the default when unset or empty) open the result,
untrimmed. -/
theorem getCORSOrigins_contains_dynamicOrigin (env : Env) (p : String)
    (hp : env "FRONTEND_PORT" = some p) (hne : p ≠ "") :
    (∃ e ∈ getCORSOrigins env,
      TrimSpace e = "http://localhost:" ++ p ∨ e = "http://localhost:" ++ p) ∧
    ((∀ c, p.data.getLast? = some c → IsSpace c = false) →
      ∃ e ∈ getCORSOrigins env, TrimSpace e = "http://localhost:" ++ p) ∧
    (∀ v, (env "CORS_ALLOWED_ORIGINS" = some v ∧ v ≠ "") ∨
        ((env "CORS_ALLOWED_ORIGINS" = none ∨ env "CORS_ALLOWED_ORIGINS" = some "") ∧
          v = defaultOrigins) →
      Split v ',' <+: getCORSOrigins env) := by
  have hfp := getEnv_of_nonempty env "FRONTEND_PORT" "" p hp hne
  have hcases : (getCORSOrigins env =
        Split (getEnv env "CORS_ALLOWED_ORIGINS" defaultOrigins) ',' ∧
        ∃ o ∈ Split (getEnv env "CORS_ALLOWED_ORIGINS" defaultOrigins) ',',
          TrimSpace o = "http://localhost:" ++ p) ∨
      getCORSOrigins env =
        Split (getEnv env "CORS_ALLOWED_ORIGINS" defaultOrigins) ',' ++
          ["http://localhost:" ++ p] := by
    by_cases hf : ∃ o ∈ Split (getEnv env "CORS_ALLOWED_ORIGINS" defaultOrigins) ',',
        TrimSpace o = "http://localhost:" ++ p
    · exact Or.inl ⟨getCORSOrigins_of_found env (by rw [hfp]; exact hf), hf⟩
    · right
      have := getCORSOrigins_of_not_found env (by rw [hfp]; exact hne)
        (by rw [hfp]; exact fun o ho h => hf ⟨o, ho, h⟩)
      rw [this, hfp]
  refine ⟨?_, ?_, ?_⟩
  · rcases hcases with ⟨he, o, ho, hto⟩ | he
    · exact ⟨o, he ▸ ho, Or.inl hto⟩
    · exact ⟨_, by rw [he]; simp, Or.inr rfl⟩
  · intro hlast
    rcases hcases with ⟨he, o, ho, hto⟩ | he
    · exact ⟨o, he ▸ ho, hto⟩
    · exact ⟨_, by rw [he]; simp, TrimSpace_dynamicOrigin p hlast⟩
  · intro v hv
    have hor : getEnv env "CORS_ALLOWED_ORIGINS" defaultOrigins = v := by
      rcases hv with ⟨h, hvne⟩ | ⟨h, rfl⟩
      · exact getEnv_of_nonempty env _ _ _ h hvne
      · exact getEnv_of_absent env _ _ h
    rcases hcases with ⟨he, -⟩ | he
    · rw [he, hor]
    · rw [he, hor]
      exact List.prefix_append _ _

/-- Witness for C9, amended: entries with blanks stay untrimmed and the port,
found among them after trimming, is not appended. -/
theorem getCORSOrigins_contains_dynamicOrigin_witness :
    "9000" ≠ "" ∧
    (∃ e ∈ getCORSOrigins (envOf [("FRONTEND_PORT", "9000"),
        ("CORS_ALLOWED_ORIGINS", "a, http://localhost:9000 ")]),
      TrimSpace e = "http://localhost:" ++ "9000") ∧
    Split "a, http://localhost:9000 " ',' <+: getCORSOrigins (envOf [("FRONTEND_PORT", "9000"),
        ("CORS_ALLOWED_ORIGINS", "a, http://localhost:9000 ")]) :=
  have h := getCORSOrigins_contains_dynamicOrigin
    (envOf [("FRONTEND_PORT", "9000"), ("CORS_ALLOWED_ORIGINS", "a, http://localhost:9000 ")])
    "9000" rfl (by decide)
  ⟨by decide, h.2.1 (fun c hc => Option.some.inj hc ▸ rfl),
    h.2.2 "a, http://localhost:9000 " (Or.inl ⟨rfl, by decide⟩)⟩

/-! ## Facts about `Connect` -/

section ConnectFacts

variable {α π : Type}

theorem Connect_of_parse_error (drv : Driver α π) (cfg : Config) (e : GoError)
    (hp : drv.ParseConfig (Connect.dsn cfg) = .error e) :
    Connect drv cfg =
      { pool := none
        err := some (.wrap ("failed to parse database config: " ++ e.Error) e)
        calls := [.logInfo "database" (Connect.logMessage cfg), .parse (Connect.dsn cfg)] } := by
  simp [Connect, hp, Errorf]

theorem Connect_of_create_error (drv : Driver α π) (cfg : Config) (c : PoolConfig α)
    (e : GoError) (hp : drv.ParseConfig (Connect.dsn cfg) = .ok c)
    (hn : drv.NewWithConfig { MaxConns := 10, MinConns := 2, other := c.other } = .error e) :
    Connect drv cfg =
      { pool := none
        err := some (.wrap ("failed to create connection pool: " ++ e.Error) e)
        calls := [.logInfo "database" (Connect.logMessage cfg), .parse (Connect.dsn cfg),
          .create { MaxConns := 10, MinConns := 2, other := c.other }] } := by
  simp [Connect, hp, hn, Errorf]

theorem Connect_of_ping_error (drv : Driver α π) (cfg : Config) (c : PoolConfig α)
    (pl : π) (e : GoError) (hp : drv.ParseConfig (Connect.dsn cfg) = .ok c)
    (hn : drv.NewWithConfig { MaxConns := 10, MinConns := 2, other := c.other } = .ok pl)
    (hg : drv.Ping pl = some e) :
    Connect drv cfg =
      { pool := none
        err := some (.wrap ("failed to ping database: " ++ e.Error) e)
        calls := [.logInfo "database" (Connect.logMessage cfg), .parse (Connect.dsn cfg),
          .create { MaxConns := 10, MinConns := 2, other := c.other }, .ping pl] } := by
  simp [Connect, hp, hn, hg, Errorf]

theorem Connect_of_success (drv : Driver α π) (cfg : Config) (c : PoolConfig α)
    (pl : π) (hp : drv.ParseConfig (Connect.dsn cfg) = .ok c)
    (hn : drv.NewWithConfig { MaxConns := 10, MinConns := 2, other := c.other } = .ok pl)
    (hg : drv.Ping pl = none) :
    Connect drv cfg =
      { pool := some pl
        err := none
        calls := [.logInfo "database" (Connect.logMessage cfg), .parse (Connect.dsn cfg),
          .create { MaxConns := 10, MinConns := 2, other := c.other }, .ping pl] } := by
  simp [Connect, hp, hn, hg]

theorem parsedDescriptors_Connect (drv : Driver α π) (cfg : Config) :
    parsedDescriptors (Connect drv cfg).calls = [Connect.dsn cfg] := by
  cases hp : drv.ParseConfig (Connect.dsn cfg) with
  | error e => simp [Connect_of_parse_error drv cfg e hp, parsedDescriptors]
  | ok c =>
    cases hn : drv.NewWithConfig { MaxConns := 10, MinConns := 2, other := c.other } with
    | error e => simp [Connect_of_create_error drv cfg c e hp hn, parsedDescriptors]
    | ok pl =>
      cases hg : drv.Ping pl with
      | none => simp [Connect_of_success drv cfg c pl hp hn hg, parsedDescriptors]
      | some e => simp [Connect_of_ping_error drv cfg c pl e hp hn hg, parsedDescriptors]

/-- In a list of characters, the first space and what surrounds it are
determined by the list. -/
theorem append_space_inj {a b r t : List Char} (ha : ' ' ∉ a) (hb : ' ' ∉ b)
    (h : a ++ ' ' :: r = b ++ ' ' :: t) : a = b ∧ r = t := by
  induction a generalizing b with
  | nil =>
    cases b with
    | nil => simpa using h
    | cons y ys =>
      simp only [List.nil_append, List.cons_append, List.cons.injEq] at h
      exact absurd (h.1 ▸ List.mem_cons_self _ _) hb
  | cons x xs ih =>
    cases b with
    | nil =>
      simp only [List.nil_append, List.cons_append, List.cons.injEq] at h
      exact absurd (h.1 ▸ List.mem_cons_self _ _) ha
    | cons y ys =>
      simp only [List.cons_append, List.cons.injEq] at h
      have hx : ' ' ∉ xs := fun hm => ha (List.mem_cons_of_mem _ hm)
      have hy : ' ' ∉ ys := fun hm => hb (List.mem_cons_of_mem _ hm)
      obtain ⟨e1, e2⟩ := ih hx hy h.2
      exact ⟨by rw [h.1, e1], e2⟩

theorem dsn_data (cfg : Config) (h : cfg.DatabaseURL = "") :
    (Connect.dsn cfg).data =
      ("host=".data ++ cfg.DBHost.data) ++ ' ' :: (("port=".data ++ cfg.DBPort.data) ++ ' ' ::
        (("user=".data ++ cfg.DBUser.data) ++ ' ' :: (("password=".data ++ cfg.DBPassword.data)
          ++ ' ' :: (("dbname=".data ++ cfg.DBName.data) ++ ' ' ::
            ("sslmode=".data ++ cfg.DBSSLMode.data))))) := by
  simp [Connect.dsn, h, String.data_append]

theorem not_space_mem_key {k f : List Char} (hk : ' ' ∉ k) (hf : ' ' ∉ f) : ' ' ∉ k ++ f := by
  simp [hk, hf]

/-- C6: `Connect` returns a pool handle and no error exactly when parsing, pool
creation and the ping all succeed, and the handle is the created pool; a failing
stage gives no handle and that stage's error under its context prefix, and the
driver calls made are the stages up to the failing one, each once. -/
theorem Connect_all_or_nothing (drv : Driver α π) (cfg : Config) :
    ((∃ pl, (Connect drv cfg).pool = some pl ∧ (Connect drv cfg).err = none) ↔
      ∃ c pl, drv.ParseConfig (Connect.dsn cfg) = .ok c ∧
        drv.NewWithConfig { c with MaxConns := 10, MinConns := 2 } = .ok pl ∧
        drv.Ping pl = none) ∧
    (∀ c pl, drv.ParseConfig (Connect.dsn cfg) = .ok c →
      drv.NewWithConfig { c with MaxConns := 10, MinConns := 2 } = .ok pl →
      drv.Ping pl = none →
      (Connect drv cfg).pool = some pl ∧ (Connect drv cfg).err = none ∧
      driverCalls (Connect drv cfg).calls =
        [.parse (Connect.dsn cfg), .create { c with MaxConns := 10, MinConns := 2 },
          .ping pl]) ∧
    (∀ e, drv.ParseConfig (Connect.dsn cfg) = .error e →
      (Connect drv cfg).pool = none ∧
      (Connect drv cfg).err =
        some (.wrap ("failed to parse database config: " ++ e.Error) e) ∧
      driverCalls (Connect drv cfg).calls = [.parse (Connect.dsn cfg)]) ∧
    (∀ c e, drv.ParseConfig (Connect.dsn cfg) = .ok c →
      drv.NewWithConfig { c with MaxConns := 10, MinConns := 2 } = .error e →
      (Connect drv cfg).pool = none ∧
      (Connect drv cfg).err =
        some (.wrap ("failed to create connection pool: " ++ e.Error) e) ∧
      driverCalls (Connect drv cfg).calls =
        [.parse (Connect.dsn cfg), .create { c with MaxConns := 10, MinConns := 2 }]) ∧
    (∀ c pl e, drv.ParseConfig (Connect.dsn cfg) = .ok c →
      drv.NewWithConfig { c with MaxConns := 10, MinConns := 2 } = .ok pl →
      drv.Ping pl = some e →
      (Connect drv cfg).pool = none ∧
      (Connect drv cfg).err = some (.wrap ("failed to ping database: " ++ e.Error) e) ∧
      driverCalls (Connect drv cfg).calls =
        [.parse (Connect.dsn cfg), .create { c with MaxConns := 10, MinConns := 2 },
          .ping pl]) := by
  refine ⟨?_, ?_, ?_, ?_, ?_⟩
  · constructor
    · rintro ⟨pl, h1, -⟩
      cases hp : drv.ParseConfig (Connect.dsn cfg) with
      | error e => simp [Connect_of_parse_error drv cfg e hp] at h1
      | ok c =>
        cases hn : drv.NewWithConfig { MaxConns := 10, MinConns := 2, other := c.other } with
        | error e => simp [Connect_of_create_error drv cfg c e hp hn] at h1
        | ok q =>
          cases hg : drv.Ping q with
          | some e => simp [Connect_of_ping_error drv cfg c q e hp hn hg] at h1
          | none => exact ⟨c, q, rfl, hn, hg⟩
    · rintro ⟨c, pl, hp, hn, hg⟩
      exact ⟨pl, by simp [Connect_of_success drv cfg c pl hp hn hg]⟩
  · intro c pl hp hn hg
    simp [Connect_of_success drv cfg c pl hp hn hg, driverCalls]
  · intro e hp
    simp [Connect_of_parse_error drv cfg e hp, driverCalls]
  · intro c e hp hn
    simp [Connect_of_create_error drv cfg c e hp hn, driverCalls]
  · intro c pl e hp hn hg
    simp [Connect_of_ping_error drv cfg c pl e hp hn hg, driverCalls]

/-- C10: for two configurations with empty `DatabaseURL` whose six database
fields contain no space, equal descriptors handed to the parser force the six
fields to be pairwise equal. -/
theorem Connect_descriptor_injective (drv drv' : Driver α π) (c1 c2 : Config)
    (h1 : c1.DatabaseURL = "") (h2 : c2.DatabaseURL = "")
    (n1 : ∀ f ∈ [c1.DBHost, c1.DBPort, c1.DBUser, c1.DBPassword, c1.DBName, c1.DBSSLMode],
      ' ' ∉ f.data)
    (n2 : ∀ f ∈ [c2.DBHost, c2.DBPort, c2.DBUser, c2.DBPassword, c2.DBName, c2.DBSSLMode],
      ' ' ∉ f.data)
    (heq : parsedDescriptors (Connect drv c1).calls =
      parsedDescriptors (Connect drv' c2).calls) :
    c1.DBHost = c2.DBHost ∧ c1.DBPort = c2.DBPort ∧ c1.DBUser = c2.DBUser ∧
      c1.DBPassword = c2.DBPassword ∧ c1.DBName = c2.DBName ∧ c1.DBSSLMode = c2.DBSSLMode := by
  rw [parsedDescriptors_Connect, parsedDescriptors_Connect] at heq
  have hd : (Connect.dsn c1).data = (Connect.dsn c2).data := by
    rw [List.singleton_inj.mp heq]
  rw [dsn_data c1 h1, dsn_data c2 h2] at hd
  simp only [List.mem_cons, List.mem_singleton, forall_eq_or_imp, forall_eq,
    List.not_mem_nil, false_imp_iff, implies_true, and_true] at n1 n2
  obtain ⟨a1, a2, a3, a4, a5, -⟩ := n1
  obtain ⟨b1, b2, b3, b4, b5, -⟩ := n2
  have ks : ∀ k : String, k ∈ ["host=", "port=", "user=", "password=", "dbname="] →
      ' ' ∉ k.data := by decide
  obtain ⟨e1, hd⟩ := append_space_inj (not_space_mem_key (ks _ (by simp)) a1)
    (not_space_mem_key (ks _ (by simp)) b1) hd
  obtain ⟨e2, hd⟩ := append_space_inj (not_space_mem_key (ks _ (by simp)) a2)
    (not_space_mem_key (ks _ (by simp)) b2) hd
  obtain ⟨e3, hd⟩ := append_space_inj (not_space_mem_key (ks _ (by simp)) a3)
    (not_space_mem_key (ks _ (by simp)) b3) hd
  obtain ⟨e4, hd⟩ := append_space_inj (not_space_mem_key (ks _ (by simp)) a4)
    (not_space_mem_key (ks _ (by simp)) b4) hd
  obtain ⟨e5, hd⟩ := append_space_inj (not_space_mem_key (ks _ (by simp)) a5)
    (not_space_mem_key (ks _ (by simp)) b5) hd
  exact ⟨String.ext (List.append_cancel_left e1), String.ext (List.append_cancel_left e2),
    String.ext (List.append_cancel_left e3), String.ext (List.append_cancel_left e4),
    String.ext (List.append_cancel_left e5), String.ext (List.append_cancel_left hd)⟩

/-- Witness for C6: with an unreachable database the ping stage fails. -/
theorem Connect_all_or_nothing_witness :
    (Connect (sampleDriver false) defaultConfig).pool = none ∧
    (Connect (sampleDriver false) defaultConfig).err =
      some (.wrap "failed to ping database: connection refused" (.base "connection refused")) ∧
    driverCalls (Connect (sampleDriver false) defaultConfig).calls =
      [.parse (Connect.dsn defaultConfig),
        .create { MaxConns := 10, MinConns := 2, other := Connect.dsn defaultConfig },
        .ping 7] :=
  (Connect_all_or_nothing (sampleDriver false) defaultConfig).2.2.2.2
    { MaxConns := 4, MinConns := 0, other := Connect.dsn defaultConfig } 7
    (.base "connection refused") rfl rfl rfl

/-- Witness for C10: two configurations that differ only outside the database fields. -/
theorem Connect_descriptor_injective_witness :
    defaultConfig.DBHost = { defaultConfig with ServerPort := "9090" }.DBHost ∧
    defaultConfig.DBPort = { defaultConfig with ServerPort := "9090" }.DBPort ∧
    defaultConfig.DBUser = { defaultConfig with ServerPort := "9090" }.DBUser ∧
    defaultConfig.DBPassword = { defaultConfig with ServerPort := "9090" }.DBPassword ∧
    defaultConfig.DBName = { defaultConfig with ServerPort := "9090" }.DBName ∧
    defaultConfig.DBSSLMode = { defaultConfig with ServerPort := "9090" }.DBSSLMode :=
  Connect_descriptor_injective (sampleDriver true) (sampleDriver false) defaultConfig
    { defaultConfig with ServerPort := "9090" } (by decide) (by decide) (by decide) (by decide)
    (by decide)

end ConnectFacts

end ProjectNest
